import Mathlib

/-!
A shallow embedding in Lean 4 of the durable-workflow core of the
dbos-transact repository (Operon snapshot): the Postgres system database
(`PostgresSystemDatabase` in the TypeScript source), the executor entry
point `Operon.workflow`, and the debug/replay context
(`WorkflowContextDebug`).

Modelling conventions:
- JSON values are the inductive `Js`; a serialized value is identified
  with the value itself (`JSON.parse` after `JSON.stringify` is the
  identity on JSON-safe values), and `serializeError` represents an
  error by its serialized JSON payload.
- A nullable text column holds `Option Js`; `none` is SQL NULL.
  `JSON.parse` applied to a column is `parseCol`: JS coerces `null` to
  the string "null", so a NULL column parses to the JSON value `null`.
- Tables are association lists keyed by their primary keys; `lookup`
  is the SELECT-by-key, `upsert` is INSERT .. ON CONFLICT DO UPDATE,
  appending is a plain INSERT, `eraseKey` is DELETE-by-key.
- Fallible operations return `Except`; thrown exceptions are `.error`.
- Waiting (timers, LISTEN/NOTIFY wake-ups) is abstracted away: a step
  is modelled as the transaction it finally commits, applied to the
  database state it observes at that point.
-/

set_option autoImplicit false

namespace DBOS

/-- JSON values as stored in and returned from the system database. The
code never inspects the structure of a payload, so atoms suffice as
the universe of values; a composite payload (array or object) is
represented by its serialization as a `str`. -/
inductive Js where
  | null
  | bool (b : Bool)
  | num (n : Int)
  | str (s : String)
deriving DecidableEq

/-- JSON.parse of a nullable text column: a SQL NULL cell is coerced by
JS to the string "null" and parses to JSON null; otherwise the cell
holds the serialization of a JSON value and parses back to it. -/
def parseCol : Option Js → Js
  | none => Js.null
  | some j => j

/-- SELECT by primary key over an association-list table: the first row
whose key matches. -/
def lookup {κ ν : Type} [DecidableEq κ] (k : κ) : List (κ × ν) → Option ν
  | [] => none
  | (k2, v) :: rest => if k2 = k then some v else lookup k rest

/-- INSERT .. ON CONFLICT (key) DO UPDATE: if a row with the key exists,
replace it by `f (some oldValue)`; otherwise append the row `f none`. -/
def upsert {κ ν : Type} [DecidableEq κ] (k : κ) (f : Option ν → ν) : List (κ × ν) → List (κ × ν)
  | [] => [(k, f none)]
  | (k2, v) :: rest => if k2 = k then (k2, f (some v)) :: rest else (k2, v) :: upsert k f rest

/-- DELETE by key: remove every row whose key matches. -/
def eraseKey {κ ν : Type} [DecidableEq κ] (k : κ) : List (κ × ν) → List (κ × ν)
  | [] => []
  | (k2, v) :: rest => if k2 = k then eraseKey k rest else (k2, v) :: eraseKey k rest

/-- StatusString.SUCCESS from src/workflow. -/
def StatusString.SUCCESS : String := "SUCCESS"

/-- StatusString.ERROR from src/workflow. -/
def StatusString.ERROR : String := "ERROR"

/-- StatusString.PENDING from src/workflow. -/
def StatusString.PENDING : String := "PENDING"

/-- A row of operon.workflow_status: status TEXT, output TEXT, error TEXT
(the workflow_uuid key is the association-list key). -/
structure WorkflowStatusRow where
  status : String
  output : Option Js
  error : Option Js
deriving DecidableEq

/-- A row of operon.operation_outputs: output TEXT, error TEXT (the
(workflow_uuid, function_id) key is the association-list key). -/
structure OperationOutputRow where
  output : Option Js
  error : Option Js
deriving DecidableEq

/-- The state of the Operon system database (part_016 era): workflow_status
keyed by workflow_uuid, operation_outputs keyed by
(workflow_uuid, function_id), and notifications keyed by its
PRIMARY KEY (topic, key) with the message as payload. -/
structure SystemDBState where
  workflow_status : List (String × WorkflowStatusRow)
  operation_outputs : List ((String × Nat) × OperationOutputRow)
  notifications : List ((String × String) × Js)
deriving DecidableEq

/-- A node-postgres DatabaseError, identified by its five-character
SQLSTATE code (for example 23505 unique_violation, 40001
serialization_failure). -/
structure DatabaseError where
  code : String
deriving DecidableEq

/-- Errors thrown by system-database operations: the workflow-conflict
error raised on duplicate-key or serialization failures, a propagated
DatabaseError, or a recorded application error rethrown after
deserialization. -/
inductive SDBError where
  | workflowConflictUUID (uuid : String)
  | databaseError (e : DatabaseError)
  | thrown (e : Js)
deriving DecidableEq

namespace PostgresSystemDatabase

/-- PostgresSystemDatabase.checkWorkflowOutput: SELECT status, output,
error by workflow_uuid; no row yields the null sentinel operonNull
(modelled `.ok none`); an ERROR row rethrows the deserialized error;
any other row returns the deserialized output (modelled `.ok (some _)`). -/
def checkWorkflowOutput (db : SystemDBState) (workflowUUID : String) : Except SDBError (Option Js) :=
  match lookup workflowUUID db.workflow_status with
  | none => .ok none
  | some row =>
    if row.status = StatusString.ERROR then
      .error (.thrown (parseCol row.error))
    else
      .ok (some (parseCol row.output))

/-- PostgresSystemDatabase.recordWorkflowError: INSERT the (uuid, ERROR,
serialized error) row ON CONFLICT (workflow_uuid) DO UPDATE SET
status, error (the output column is not in the SET list, so an update
keeps the old output; a fresh insert leaves it NULL). -/
def recordWorkflowError (db : SystemDBState) (workflowUUID : String) (error : Js) : SystemDBState :=
  { db with
    workflow_status :=
      upsert workflowUUID
        (fun old =>
          match old with
          | none => ⟨StatusString.ERROR, none, some error⟩
          | some row => { row with status := StatusString.ERROR, error := some error })
        db.workflow_status }

/-- PostgresSystemDatabase.flushWorkflowOutputBuffer: for each buffered
(uuid, output) pair, INSERT a (uuid, SUCCESS, serialized output) row
ON CONFLICT (workflow_uuid) DO UPDATE SET status, output (the error
column is not in the SET list). -/
def flushWorkflowOutputBuffer (db : SystemDBState) (buffer : List (String × Js)) : SystemDBState :=
  buffer.foldl
    (fun acc entry =>
      { acc with
        workflow_status :=
          upsert entry.1
            (fun old =>
              match old with
              | none => ⟨StatusString.SUCCESS, some entry.2, none⟩
              | some row => { row with status := StatusString.SUCCESS, output := some entry.2 })
            acc.workflow_status })
    db

/-- The INSERT INTO operon.operation_outputs statement issued by
recordCommunicatorOutput and recordCommunicatorError. A duplicate
primary key fails with SQLSTATE 23505; `envFail` supplies any
environment-caused DatabaseError (for example 40001 under a
serializable snapshot, or a connection failure); otherwise the row is
appended. -/
def insertOperationOutputRow (db : SystemDBState) (workflowUUID : String) (functionID : Nat)
    (row : OperationOutputRow) (envFail : Option DatabaseError) : Except DatabaseError SystemDBState :=
  if (lookup (workflowUUID, functionID) db.operation_outputs).isSome then
    .error ⟨"23505"⟩
  else
    match envFail with
    | some e => .error e
    | none => .ok { db with operation_outputs := db.operation_outputs ++ [((workflowUUID, functionID), row)] }

/-- The catch block shared by recordCommunicatorOutput and
recordCommunicatorError: a DatabaseError with SQLSTATE 40001
(serialization failure) or 23505 (primary-key conflict) is rethrown as
OperonWorkflowConflictUUIDError; every other error propagates
unchanged. -/
def mapRecordError (workflowUUID : String) :
    Except DatabaseError SystemDBState → Except SDBError SystemDBState
  | .ok db2 => .ok db2
  | .error err =>
    if err.code = "40001" ∨ err.code = "23505" then
      .error (.workflowConflictUUID workflowUUID)
    else
      .error (.databaseError err)

/-- PostgresSystemDatabase.recordCommunicatorOutput: insert the output
row; catch a DatabaseError and rethrow codes 40001 and 23505 as
OperonWorkflowConflictUUIDError, propagating every other error. -/
def recordCommunicatorOutput (db : SystemDBState) (workflowUUID : String) (functionID : Nat)
    (output : Js) (envFail : Option DatabaseError) : Except SDBError SystemDBState :=
  mapRecordError workflowUUID (insertOperationOutputRow db workflowUUID functionID ⟨some output, none⟩ envFail)

/-- PostgresSystemDatabase.recordCommunicatorError: insert the error row;
catch a DatabaseError and rethrow codes 40001 and 23505 as
OperonWorkflowConflictUUIDError, propagating every other error. -/
def recordCommunicatorError (db : SystemDBState) (workflowUUID : String) (functionID : Nat)
    (error : Js) (envFail : Option DatabaseError) : Except SDBError SystemDBState :=
  mapRecordError workflowUUID (insertOperationOutputRow db workflowUUID functionID ⟨none, some error⟩ envFail)

/-- Result of PostgresSystemDatabase.send: the returned JSON value (the
parsed recorded boolean, or the freshly computed success flag) and the
database state after the transaction commits (or after the rollback in
the short-circuit branch). -/
structure SendResult where
  ret : Js
  db : SystemDBState
deriving DecidableEq

/-- PostgresSystemDatabase.send: inside one READ COMMITTED transaction,
probe operation_outputs for (uuid, fid) and, if a row is recorded,
roll back and return its parsed output; otherwise INSERT the message
into notifications ON CONFLICT (topic, key) DO NOTHING (success iff no
row existed for the key), record the success flag as the operation
output, and commit. -/
def send (db : SystemDBState) (workflowUUID : String) (functionID : Nat)
    (topic key : String) (message : Js) : SendResult :=
  match lookup (workflowUUID, functionID) db.operation_outputs with
  | some row => { ret := parseCol row.output, db := db }
  | none =>
    let success : Bool := (lookup (topic, key) db.notifications).isNone
    let db1 :=
      if success then
        { db with notifications := db.notifications ++ [((topic, key), message)] }
      else
        db
    let db2 :=
      { db1 with
        operation_outputs :=
          db1.operation_outputs ++ [((workflowUUID, functionID), ⟨some (Js.bool success), none⟩)] }
    { ret := Js.bool success, db := db2 }

/-- Result of PostgresSystemDatabase.recv: the returned JSON value (the
consumed message, JSON null on timeout, or the parsed recorded output)
and the database state after the consuming transaction commits. -/
structure RecvResult where
  ret : Js
  db : SystemDBState
deriving DecidableEq

/-- PostgresSystemDatabase.recv, at the point its final consuming
transaction runs: probe operation_outputs for (uuid, fid) and return
the parsed recorded output if present; otherwise, in one READ
COMMITTED transaction, DELETE the notification row for (topic, key)
RETURNING its message (null if no row is present, which is the state
after the timeout expired with no matching notification), record the
result as the operation output, and commit. -/
def recv (db : SystemDBState) (workflowUUID : String) (functionID : Nat)
    (topic key : String) : RecvResult :=
  match lookup (workflowUUID, functionID) db.operation_outputs with
  | some row => { ret := parseCol row.output, db := db }
  | none =>
    match lookup (topic, key) db.notifications with
    | some msg =>
      { ret := msg,
        db :=
          { db with
            notifications := eraseKey (topic, key) db.notifications,
            operation_outputs :=
              db.operation_outputs ++ [((workflowUUID, functionID), ⟨some msg, none⟩)] } }
    | none =>
      { ret := Js.null,
        db :=
          { db with
            operation_outputs :=
              db.operation_outputs ++ [((workflowUUID, functionID), ⟨some Js.null, none⟩)] } }

end PostgresSystemDatabase

/-- Workflow configuration (part_015 era): the optional role list.
In JS an absent rolesThatCanRun field is falsy, while a present
(even empty) array is truthy, which the Option models exactly. -/
structure WorkflowConfig where
  rolesThatCanRun : Option (List String)
deriving DecidableEq

namespace Operon

/-- State of the early-Operon system tables used by Operon.workflow:
operon__WorkflowOutputs keyed by workflow_id, and
operon__FunctionOutputs keyed by (workflow_id, function_id) with the
output column as payload. -/
structure OperonState where
  workflowOutputs : List (String × Js)
  functionOutputs : List ((String × Nat) × Js)
deriving DecidableEq

/-- Errors thrown synchronously by Operon.workflow before the body runs. -/
inductive OperonErr where
  | unregisteredWorkflow (name : String)
  | workflowPermissionDenied (role name : String)
deriving DecidableEq

/-- Operon.hasPermission: an absent role list means the workflow is
permission-less; with a role list present, the default role is always
rejected and otherwise the role must appear in the list. -/
def hasPermission (role : String) (workflowConfig : WorkflowConfig) : Bool :=
  match workflowConfig.rolesThatCanRun with
  | none => true
  | some roles =>
    if role = "defaultRole" then false
    else roles.contains role

/-- The observable outcome of one Operon.workflow invocation: the value
returned to the caller, the argument actually passed to the workflow
body (`none` when the body never ran), the context result buffer of
pending operon__FunctionOutputs inserts, and the in-memory workflow
output buffer entries produced. -/
structure WorkflowRun where
  result : Js
  bodyInvokedWith : Option Js
  resultBuffer : List (Nat × Js)
  outputBuffer : List (String × Js)
deriving DecidableEq

/-- Operon.workflow (part_015): look up the workflow configuration
(unregistered workflows throw); allocate function ID 0 for the
workflow input; check permissions for the effective role (defaulting
to "defaultRole"); query operon__WorkflowOutputs and return the
recorded output without running the body if one exists; otherwise
query operon__FunctionOutputs at function ID 0, replaying the recorded
input if present and buffering the caller-supplied input if absent;
run the body on the chosen input and buffer its output. The workflow
body is `wf`, a function of the JSON-serialized argument tuple. -/
def workflow (st : OperonState) (wConfig : Option WorkflowConfig) (runAs : Option String)
    (workflowUUID : String) (wfName : String) (args : Js) (wf : Js → Js) :
    Except OperonErr WorkflowRun :=
  match wConfig with
  | none => .error (.unregisteredWorkflow wfName)
  | some cfg =>
    let workflowInputID : Nat := 0
    let role := runAs.getD "defaultRole"
    if hasPermission role cfg = false then
      .error (.workflowPermissionDenied role wfName)
    else
      match lookup workflowUUID st.workflowOutputs with
      | some previousOutput =>
        .ok { result := previousOutput, bodyInvokedWith := none, resultBuffer := [], outputBuffer := [] }
      | none =>
        match lookup (workflowUUID, workflowInputID) st.functionOutputs with
        | some recorded =>
          let result := wf recorded
          .ok { result := result, bodyInvokedWith := some recorded,
                resultBuffer := [], outputBuffer := [(workflowUUID, result)] }
        | none =>
          let result := wf args
          .ok { result := result, bodyInvokedWith := some args,
                resultBuffer := [(workflowInputID, args)], outputBuffer := [(workflowUUID, result)] }

end Operon

/-- One assignment step of the workflow-context function ID counter:
functionIDGetIncrement returns the current counter and increments it
(`return this.functionID++`). -/
def functionIDGetIncrement (functionID : Nat) : Nat × Nat :=
  (functionID, functionID + 1)

/-- The sequence of function IDs handed out by `calls` successive
invocations of functionIDGetIncrement on a context whose counter
currently holds `functionID`. -/
def assignedFunctionIDs (functionID : Nat) : Nat → List Nat
  | 0 => []
  | calls + 1 =>
    let step := functionIDGetIncrement functionID
    step.1 :: assignedFunctionIDs step.2 calls

/-- A row of dbos.transaction_outputs as read by the debugger:
output TEXT, error TEXT, txn_snapshot TEXT, txn_id TEXT. -/
structure TransactionOutputRow where
  output : Option Js
  error : Option Js
  txn_snapshot : String
  txn_id : String
deriving DecidableEq

/-- The recorded state visible to the debug/replay context: the system
database operation_outputs table and the user database
dbos.transaction_outputs table, both keyed by
(workflow_uuid, function_id). -/
structure DebugState where
  operation_outputs : List ((String × Nat) × OperationOutputRow)
  transaction_outputs : List ((String × Nat) × TransactionOutputRow)
deriving DecidableEq

/-- Errors surfaced by debug/replay steps: the DBOSDebuggerError raised
when the recorded result of a step cannot be found, the
DBOSDebuggerError raised when the operation is not registered, and a
recorded application error rethrown after deserialization. -/
inductive DebugErr where
  | cannotFindRecorded
  | notRegistered
  | thrown (e : Js)
deriving DecidableEq

/-- SystemDatabase.checkOperationOutput: SELECT output, error from
operation_outputs by (workflow_uuid, function_id); no row yields the
null sentinel dbosNull (modelled `.ok none`); a row whose error column
parses to non-null rethrows the deserialized error; otherwise the
parsed output is returned (modelled `.ok (some _)`). -/
def checkOperationOutput (db : DebugState) (workflowUUID : String) (functionID : Nat) :
    Except DebugErr (Option Js) :=
  match lookup (workflowUUID, functionID) db.operation_outputs with
  | none => .ok none
  | some row =>
    if parseCol row.error ≠ Js.null then
      .error (.thrown (parseCol row.error))
    else
      .ok (some (parseCol row.output))

/-- The recorded result assembled by WorkflowContextDebug.checkExecution. -/
structure RecordedResult where
  output : Js
  txn_snapshot : String
  txn_id : String
deriving DecidableEq

namespace WorkflowContextDebug

/-- WorkflowContextDebug.checkExecution: SELECT output, error,
txn_snapshot, txn_id from dbos.transaction_outputs by
(workflow_uuid, function_id); a missing row raises DBOSDebuggerError;
a row whose error column parses to non-null rethrows the deserialized
recorded error; otherwise the recorded result is returned. -/
def checkExecution (db : DebugState) (workflowUUID : String) (funcID : Nat) :
    Except DebugErr RecordedResult :=
  match lookup (workflowUUID, funcID) db.transaction_outputs with
  | none => .error .cannotFindRecorded
  | some row =>
    if parseCol row.error ≠ Js.null then
      .error (.thrown (parseCol row.error))
    else
      .ok ⟨parseCol row.output, row.txn_snapshot, row.txn_id⟩

/-- Decidable equality of Except results, so that concrete debug runs
can be checked by evaluation. -/
instance instDecEqExcept {ε α : Type} [DecidableEq ε] [DecidableEq α] : DecidableEq (Except ε α)
  | .ok a, .ok b =>
    if h : a = b then .isTrue (by rw [h]) else .isFalse (fun hc => h (Except.ok.inj hc))
  | .error a, .error b =>
    if h : a = b then .isTrue (by rw [h]) else .isFalse (fun hc => h (Except.error.inj hc))
  | .ok _, .error _ => .isFalse Except.noConfusion
  | .error _, .ok _ => .isFalse Except.noConfusion

/-- The observable outcome of one debug-mode transaction step: the value
returned or error thrown, whether the user body was re-executed, and
whether the output-mismatch log line was emitted. -/
structure DebugTxnRun where
  result : Except DebugErr Js
  bodyRan : Bool
  mismatchLogged : Bool
deriving DecidableEq

/-- WorkflowContextDebug.transaction (debug_workflow.ts): unregistered
transactions raise DBOSDebuggerError; otherwise checkExecution must
find the recorded row (its errors abort the step before the body
runs); then the user body is re-executed (its result is the
`bodyResult` parameter), its JSON serialization is compared with the
recorded output and a log line is emitted on mismatch, and the
recorded output is always returned. -/
def transaction (registered : Bool) (db : DebugState) (workflowUUID : String) (funcID : Nat)
    (bodyResult : Js) : DebugTxnRun :=
  if registered = false then
    { result := .error .notRegistered, bodyRan := false, mismatchLogged := false }
  else
    match checkExecution db workflowUUID funcID with
    | .error e => { result := .error e, bodyRan := false, mismatchLogged := false }
    | .ok check =>
      { result := .ok check.output,
        bodyRan := true,
        mismatchLogged := decide (check.output ≠ bodyResult) }

/-- WorkflowContextDebug.external: unregistered communicators raise
DBOSDebuggerError; otherwise probe checkOperationOutput and raise
DBOSDebuggerError if no recorded row exists, returning the recorded
output without running the communicator otherwise. -/
def external (registered : Bool) (db : DebugState) (workflowUUID : String) (funcID : Nat) :
    Except DebugErr Js :=
  if registered = false then
    .error .notRegistered
  else
    match checkOperationOutput db workflowUUID funcID with
    | .error e => .error e
    | .ok none => .error .cannotFindRecorded
    | .ok (some v) => .ok v

/-- WorkflowContextDebug.send: probe checkOperationOutput and raise
DBOSDebuggerError if no recorded row exists; otherwise return without
sending anything. -/
def send (db : DebugState) (workflowUUID : String) (functionID : Nat) : Except DebugErr Unit :=
  match checkOperationOutput db workflowUUID functionID with
  | .error e => .error e
  | .ok none => .error .cannotFindRecorded
  | .ok (some _) => .ok ()

/-- WorkflowContextDebug.recv: probe checkOperationOutput and raise
DBOSDebuggerError if no recorded row exists; otherwise return the
recorded message without consuming anything. -/
def recv (db : DebugState) (workflowUUID : String) (functionID : Nat) : Except DebugErr Js :=
  match checkOperationOutput db workflowUUID functionID with
  | .error e => .error e
  | .ok none => .error .cannotFindRecorded
  | .ok (some v) => .ok v

/-- WorkflowContextDebug.setEvent: probe checkOperationOutput and raise
DBOSDebuggerError if no recorded row exists; otherwise return without
publishing anything. -/
def setEvent (db : DebugState) (workflowUUID : String) (functionID : Nat) : Except DebugErr Unit :=
  match checkOperationOutput db workflowUUID functionID with
  | .error e => .error e
  | .ok none => .error .cannotFindRecorded
  | .ok (some _) => .ok ()

/-- WorkflowContextDebug.getEvent: probe checkOperationOutput and raise
DBOSDebuggerError if no recorded row exists; otherwise return the
recorded value without reading workflow_events. -/
def getEvent (db : DebugState) (workflowUUID : String) (functionID : Nat) : Except DebugErr Js :=
  match checkOperationOutput db workflowUUID functionID with
  | .error e => .error e
  | .ok none => .error .cannotFindRecorded
  | .ok (some v) => .ok v

end WorkflowContextDebug

/-! Helper lemmas about the association-list table primitives. -/

theorem lookup_upsert_self {κ ν : Type} [DecidableEq κ] (k : κ) (f : Option ν → ν)
    (l : List (κ × ν)) : lookup k (upsert k f l) = some (f (lookup k l)) := by
  induction l with
  | nil => simp [lookup, upsert]
  | cons hd tl ih =>
    by_cases h : hd.1 = k
    · simp [lookup, upsert, h]
    · simp [lookup, upsert, h, ih]

theorem lookup_append_of_none {κ ν : Type} [DecidableEq κ] (k : κ) (l l2 : List (κ × ν))
    (h : lookup k l = none) : lookup k (l ++ l2) = lookup k l2 := by
  induction l with
  | nil => simp
  | cons hd tl ih =>
    by_cases hk : hd.1 = k
    · simp [lookup, hk] at h
    · simp only [lookup, hk, if_false, List.cons_append] at h ⊢
      exact ih h

theorem lookup_eraseKey_self {κ ν : Type} [DecidableEq κ] (k : κ) (l : List (κ × ν)) :
    lookup k (eraseKey k l) = none := by
  induction l with
  | nil => rfl
  | cons hd tl ih =>
    by_cases hk : hd.1 = k
    · simp [eraseKey, hk, ih]
    · simp [eraseKey, lookup, hk, ih]

theorem assignedFunctionIDs_eq_range' (n c : Nat) :
    assignedFunctionIDs c n = List.range' c n := by
  induction n generalizing c with
  | zero => rfl
  | succ n ih => simp [assignedFunctionIDs, functionIDGetIncrement, List.range', ih]

/-! Theorems settling the claims. -/

/-- Claim C9: within one workflow context, functionIDGetIncrement assigns
function IDs in strictly increasing order starting at 0: the sequence
of IDs returned by n successive calls on a fresh context is exactly
0, 1, ..., n-1, so the i-th call (counting from zero) returns i. -/
theorem functionIDs_zero_based_in_call_order (n i : Nat) (h : i < n) :
    assignedFunctionIDs 0 n = List.range n ∧ (assignedFunctionIDs 0 n)[i]? = some i := by
  have hr : assignedFunctionIDs 0 n = List.range n := by
    rw [assignedFunctionIDs_eq_range', List.range_eq_range']
  exact ⟨hr, by rw [hr]; exact List.getElem?_range h⟩

/-- Witness for C9: three calls return the IDs 0, 1, 2, and the call at
index 2 returns 2. -/
theorem functionIDs_zero_based_in_call_order_witness :
    2 < 3 ∧ assignedFunctionIDs 0 3 = List.range 3 ∧ (assignedFunctionIDs 0 3)[2]? = some 2 :=
  ⟨by decide, functionIDs_zero_based_in_call_order 3 2 (by decide)⟩

/-- Claim C2 counterexample: a workflow_status row already in the
terminal SUCCESS state is overwritten by a later recordWorkflowError,
which unconditionally upserts status and error, so the stored status
changes from SUCCESS to ERROR. -/
theorem recordWorkflowError_overwrites_success :
    lookup "u"
      (PostgresSystemDatabase.recordWorkflowError
        ⟨[("u", ⟨StatusString.SUCCESS, some (Js.num 1), none⟩)], [], []⟩
        "u" (Js.str "boom")).workflow_status
      = some ⟨StatusString.ERROR, some (Js.num 1), some (Js.str "boom")⟩
    ∧ (⟨StatusString.ERROR, some (Js.num 1), some (Js.str "boom")⟩ : WorkflowStatusRow)
      ≠ ⟨StatusString.SUCCESS, some (Js.num 1), none⟩ := by
  constructor
  · rfl
  · decide

/-- Claim C2 amended: workflow statuses are not write-once.
recordWorkflowError unconditionally upserts the row to status ERROR
with the serialized error (keeping a pre-existing output column), and
the workflow-output buffer flush unconditionally upserts the row to
status SUCCESS with the buffered output (keeping a pre-existing error
column), each regardless of any terminal status already stored. -/
theorem recordWorkflowError_and_flush_upsert_unconditionally
    (db : SystemDBState) (uuid : String) (err out : Js) :
    lookup uuid (PostgresSystemDatabase.recordWorkflowError db uuid err).workflow_status
      = some (match lookup uuid db.workflow_status with
              | none => ⟨StatusString.ERROR, none, some err⟩
              | some row => ⟨StatusString.ERROR, row.output, some err⟩)
    ∧ lookup uuid (PostgresSystemDatabase.flushWorkflowOutputBuffer db [(uuid, out)]).workflow_status
      = some (match lookup uuid db.workflow_status with
              | none => ⟨StatusString.SUCCESS, some out, none⟩
              | some row => ⟨StatusString.SUCCESS, some out, row.error⟩) := by
  constructor
  · rw [PostgresSystemDatabase.recordWorkflowError]
    rw [lookup_upsert_self]
  · rw [PostgresSystemDatabase.flushWorkflowOutputBuffer]
    simp only [List.foldl]
    rw [lookup_upsert_self]

/-- Claim C5 counterexample: for a workflow_status row whose status is
PENDING, checkWorkflowOutput returns the deserialized output column
rather than the null sentinel (the null sentinel is returned only when
the row is missing). -/
theorem checkWorkflowOutput_pending_returns_output :
    PostgresSystemDatabase.checkWorkflowOutput
      ⟨[("u", ⟨StatusString.PENDING, some (Js.num 42), none⟩)], [], []⟩ "u"
      = .ok (some (Js.num 42))
    ∧ (Except.ok (some (Js.num 42)) : Except SDBError (Option Js)) ≠ .ok none := by
  constructor
  · rfl
  · decide

/-- Claim C5 amended: checkWorkflowOutput is tri-state on the shape of
the row, not on PENDING: it returns the null sentinel exactly when no
status row exists, rethrows the deserialized error when the row's
status is ERROR, and returns the deserialized output column for any
other status, PENDING included. -/
theorem checkWorkflowOutput_tristate (db : SystemDBState) (uuid : String) :
    (lookup uuid db.workflow_status = none →
      PostgresSystemDatabase.checkWorkflowOutput db uuid = .ok none)
    ∧ (∀ row, lookup uuid db.workflow_status = some row →
        (row.status = StatusString.ERROR →
          PostgresSystemDatabase.checkWorkflowOutput db uuid = .error (.thrown (parseCol row.error)))
        ∧ (row.status ≠ StatusString.ERROR →
          PostgresSystemDatabase.checkWorkflowOutput db uuid = .ok (some (parseCol row.output)))) := by
  refine ⟨fun hnone => ?_, fun row hrow => ⟨fun herr => ?_, fun hne => ?_⟩⟩
  · rw [PostgresSystemDatabase.checkWorkflowOutput, hnone]
  · rw [PostgresSystemDatabase.checkWorkflowOutput, hrow]
    simp [herr]
  · rw [PostgresSystemDatabase.checkWorkflowOutput, hrow]
    simp [hne]

theorem mapRecordError_spec (uuid : String) (r : Except DatabaseError SystemDBState) :
    (PostgresSystemDatabase.mapRecordError uuid r = .error (.workflowConflictUUID uuid)
      ↔ ∃ e, r = .error e ∧ (e.code = "40001" ∨ e.code = "23505"))
    ∧ ∀ e, r = .error e → e.code ≠ "40001" → e.code ≠ "23505" →
        PostgresSystemDatabase.mapRecordError uuid r = .error (.databaseError e) := by
  constructor
  · constructor
    · intro h
      cases r with
      | ok db2 => simp [PostgresSystemDatabase.mapRecordError] at h
      | error e =>
        by_cases hc : e.code = "40001" ∨ e.code = "23505"
        · exact ⟨e, rfl, hc⟩
        · simp [PostgresSystemDatabase.mapRecordError, hc] at h
    · rintro ⟨e, rfl, hc⟩
      simp [PostgresSystemDatabase.mapRecordError, hc]
  · rintro e rfl h1 h2
    simp [PostgresSystemDatabase.mapRecordError, h1, h2]

/-- Claim C3: recordCommunicatorOutput and recordCommunicatorError raise
OperonWorkflowConflictUUIDError exactly when the insert into
operation_outputs fails with a DatabaseError whose code is 40001
(serialization failure) or 23505 (duplicate key); a failure with any
other code propagates as that DatabaseError unchanged. -/
theorem recordCommunicator_conflict_exactly_on_conflict_codes
    (db : SystemDBState) (uuid : String) (fid : Nat) (out err : Js)
    (envFail : Option DatabaseError) :
    ((PostgresSystemDatabase.recordCommunicatorOutput db uuid fid out envFail
        = .error (.workflowConflictUUID uuid))
      ↔ ∃ e, PostgresSystemDatabase.insertOperationOutputRow db uuid fid ⟨some out, none⟩ envFail
          = .error e ∧ (e.code = "40001" ∨ e.code = "23505"))
    ∧ (∀ e, PostgresSystemDatabase.insertOperationOutputRow db uuid fid ⟨some out, none⟩ envFail
          = .error e → e.code ≠ "40001" → e.code ≠ "23505" →
        PostgresSystemDatabase.recordCommunicatorOutput db uuid fid out envFail
          = .error (.databaseError e))
    ∧ ((PostgresSystemDatabase.recordCommunicatorError db uuid fid err envFail
        = .error (.workflowConflictUUID uuid))
      ↔ ∃ e, PostgresSystemDatabase.insertOperationOutputRow db uuid fid ⟨none, some err⟩ envFail
          = .error e ∧ (e.code = "40001" ∨ e.code = "23505"))
    ∧ (∀ e, PostgresSystemDatabase.insertOperationOutputRow db uuid fid ⟨none, some err⟩ envFail
          = .error e → e.code ≠ "40001" → e.code ≠ "23505" →
        PostgresSystemDatabase.recordCommunicatorError db uuid fid err envFail
          = .error (.databaseError e)) := by
  refine ⟨?_, ?_, ?_, ?_⟩
  · exact (mapRecordError_spec uuid _).1
  · exact (mapRecordError_spec uuid _).2
  · exact (mapRecordError_spec uuid _).1
  · exact (mapRecordError_spec uuid _).2

/-- Witness for C3: a duplicate (uuid, fid) key makes the insert fail
with code 23505 and recordCommunicatorOutput raises the workflow
conflict; a connection failure (code 08006) on an empty table
propagates unchanged. -/
theorem recordCommunicator_conflict_witness :
    PostgresSystemDatabase.recordCommunicatorOutput
      ⟨[], [(("u", 0), ⟨some (Js.num 7), none⟩)], []⟩ "u" 0 (Js.num 1) none
      = .error (.workflowConflictUUID "u")
    ∧ PostgresSystemDatabase.recordCommunicatorError
      ⟨[], [], []⟩ "u" 0 (Js.str "e") (some ⟨"08006"⟩)
      = .error (.databaseError ⟨"08006"⟩) :=
  ⟨(recordCommunicator_conflict_exactly_on_conflict_codes
      ⟨[], [(("u", 0), ⟨some (Js.num 7), none⟩)], []⟩ "u" 0 (Js.num 1) (Js.str "e") none).1.mpr
      ⟨⟨"23505"⟩, rfl, Or.inr rfl⟩,
   (recordCommunicator_conflict_exactly_on_conflict_codes
      ⟨[], [], []⟩ "u" 0 (Js.num 1) (Js.str "e") (some ⟨"08006"⟩)).2.2.2
      ⟨"08006"⟩ rfl (by decide) (by decide)⟩

/-- Claim C1: when Operon.workflow runs under a UUID whose output is
already recorded in operon__WorkflowOutputs, the recorded output is
returned and the body is never invoked; when no output is recorded but
an input is recorded at function ID 0 in operon__FunctionOutputs, the
body is invoked with the first-committed recorded input instead of the
caller-supplied arguments, so later callers see the first-committed
value. -/
theorem workflow_replays_recorded_inputs_and_outputs
    (st : Operon.OperonState) (cfg : WorkflowConfig) (runAs : Option String)
    (uuid name : String) (args : Js) (wf : Js → Js)
    (hperm : Operon.hasPermission (runAs.getD "defaultRole") cfg = true) :
    (∀ out, lookup uuid st.workflowOutputs = some out →
      Operon.workflow st (some cfg) runAs uuid name args wf
        = .ok ⟨out, none, [], []⟩)
    ∧ (∀ rec, lookup uuid st.workflowOutputs = none →
        lookup (uuid, 0) st.functionOutputs = some rec →
        Operon.workflow st (some cfg) runAs uuid name args wf
          = .ok ⟨wf rec, some rec, [], [(uuid, wf rec)]⟩) := by
  constructor
  · intro out hout
    simp [Operon.workflow, hperm, hout]
  · intro rec hnone hrec
    simp [Operon.workflow, hperm, hnone, hrec]

/-- Witness for C1: with a permission-less configuration, a recorded
output short-circuits the body, and a recorded input replaces the
caller arguments of the body (here the identity on JSON values). -/
theorem workflow_replays_recorded_witness :
    Operon.workflow ⟨[("u", Js.num 9)], []⟩ (some ⟨none⟩) none "u" "wf" (Js.str "fresh") id
      = .ok ⟨Js.num 9, none, [], []⟩
    ∧ Operon.workflow ⟨[], [(("v", 0), Js.str "first")]⟩ (some ⟨none⟩) none "v" "wf"
        (Js.str "fresh") id
      = .ok ⟨Js.str "first", some (Js.str "first"), [], [("v", Js.str "first")]⟩ :=
  ⟨(workflow_replays_recorded_inputs_and_outputs
      ⟨[("u", Js.num 9)], []⟩ ⟨none⟩ none "u" "wf" (Js.str "fresh") id rfl).1
      (Js.num 9) rfl,
   (workflow_replays_recorded_inputs_and_outputs
      ⟨[], [(("v", 0), Js.str "first")]⟩ ⟨none⟩ none "v" "wf" (Js.str "fresh") id rfl).2
      (Js.str "first") rfl rfl⟩

/-- Witness for the amended C5: on a database holding one ERROR row and
nothing else, a missing UUID yields the null sentinel and the ERROR
row rethrows its recorded error. -/
theorem checkWorkflowOutput_tristate_witness :
    PostgresSystemDatabase.checkWorkflowOutput
      ⟨[("e", ⟨StatusString.ERROR, none, some (Js.str "crash")⟩)], [], []⟩ "missing" = .ok none
    ∧ PostgresSystemDatabase.checkWorkflowOutput
      ⟨[("e", ⟨StatusString.ERROR, none, some (Js.str "crash")⟩)], [], []⟩ "e"
      = .error (.thrown (Js.str "crash")) :=
  ⟨(checkWorkflowOutput_tristate
      ⟨[("e", ⟨StatusString.ERROR, none, some (Js.str "crash")⟩)], [], []⟩ "missing").1 rfl,
   ((checkWorkflowOutput_tristate
      ⟨[("e", ⟨StatusString.ERROR, none, some (Js.str "crash")⟩)], [], []⟩ "e").2
      ⟨StatusString.ERROR, none, some (Js.str "crash")⟩ rfl).1 rfl⟩

/-- Claim C6: a recv step whose (workflow UUID, function ID) already has
a recorded operation output returns the parsed recorded payload (JSON
null included) with the database unchanged, never touching the
notifications table; with no recorded output, when the timeout expires
with no matching notification present, recv records JSON null as the
operation output for that (workflow UUID, function ID), leaves the
notifications table unchanged, and returns null. -/
theorem recv_returns_recorded_or_records_timeout_null
    (db : SystemDBState) (uuid : String) (fid : Nat) (topic key : String) :
    (∀ row, lookup (uuid, fid) db.operation_outputs = some row →
      PostgresSystemDatabase.recv db uuid fid topic key = ⟨parseCol row.output, db⟩)
    ∧ (lookup (uuid, fid) db.operation_outputs = none →
       lookup (topic, key) db.notifications = none →
        (PostgresSystemDatabase.recv db uuid fid topic key).ret = Js.null
        ∧ (PostgresSystemDatabase.recv db uuid fid topic key).db.notifications = db.notifications
        ∧ lookup (uuid, fid) (PostgresSystemDatabase.recv db uuid fid topic key).db.operation_outputs
            = some ⟨some Js.null, none⟩) := by
  constructor
  · intro row hrow
    simp [PostgresSystemDatabase.recv, hrow]
  · intro hop hnot
    refine ⟨?_, ?_, ?_⟩
    · simp [PostgresSystemDatabase.recv, hop, hnot]
    · simp [PostgresSystemDatabase.recv, hop, hnot]
    · simp only [PostgresSystemDatabase.recv, hop, hnot]
      rw [lookup_append_of_none _ _ _ hop]
      simp [lookup]

/-- Witness for C6: a recorded recv output (here JSON null) is returned
with the database untouched, and on an empty database a timed-out recv
records and returns JSON null. -/
theorem recv_recorded_or_timeout_witness :
    PostgresSystemDatabase.recv ⟨[], [(("u", 1), ⟨some Js.null, none⟩)], []⟩ "u" 1 "T" "u"
      = ⟨Js.null, ⟨[], [(("u", 1), ⟨some Js.null, none⟩)], []⟩⟩
    ∧ (PostgresSystemDatabase.recv ⟨[], [], []⟩ "u" 1 "T" "u").ret = Js.null
    ∧ lookup ("u", 1) (PostgresSystemDatabase.recv ⟨[], [], []⟩ "u" 1 "T" "u").db.operation_outputs
        = some ⟨some Js.null, none⟩ :=
  ⟨(recv_returns_recorded_or_records_timeout_null
      ⟨[], [(("u", 1), ⟨some Js.null, none⟩)], []⟩ "u" 1 "T" "u").1 ⟨some Js.null, none⟩ rfl,
   ((recv_returns_recorded_or_records_timeout_null ⟨[], [], []⟩ "u" 1 "T" "u").2 rfl rfl).1,
   ((recv_returns_recorded_or_records_timeout_null ⟨[], [], []⟩ "u" 1 "T" "u").2 rfl rfl).2.2⟩

/-- Claim C10: send delivers at most one message per (topic, key): with
no recorded operation output, the first send for a (topic, key)
inserts the notification row, records true, and returns true, while a
send finding the key occupied inserts nothing, records false, and
returns false; and a send whose (workflow UUID, function ID) already
has a recorded output returns that recorded value with the database
unchanged. -/
theorem send_at_most_one_message_per_topic_key
    (db : SystemDBState) (uuid : String) (fid : Nat) (topic key : String) (msg : Js) :
    (lookup (uuid, fid) db.operation_outputs = none →
      (lookup (topic, key) db.notifications = none →
        (PostgresSystemDatabase.send db uuid fid topic key msg).ret = Js.bool true
        ∧ lookup (topic, key)
            (PostgresSystemDatabase.send db uuid fid topic key msg).db.notifications = some msg
        ∧ lookup (uuid, fid)
            (PostgresSystemDatabase.send db uuid fid topic key msg).db.operation_outputs
            = some ⟨some (Js.bool true), none⟩)
      ∧ (∀ m0, lookup (topic, key) db.notifications = some m0 →
        (PostgresSystemDatabase.send db uuid fid topic key msg).ret = Js.bool false
        ∧ (PostgresSystemDatabase.send db uuid fid topic key msg).db.notifications
            = db.notifications
        ∧ lookup (uuid, fid)
            (PostgresSystemDatabase.send db uuid fid topic key msg).db.operation_outputs
            = some ⟨some (Js.bool false), none⟩))
    ∧ (∀ row, lookup (uuid, fid) db.operation_outputs = some row →
        PostgresSystemDatabase.send db uuid fid topic key msg = ⟨parseCol row.output, db⟩) := by
  constructor
  · intro hop
    constructor
    · intro hnot
      refine ⟨?_, ?_, ?_⟩
      · simp [PostgresSystemDatabase.send, hop, hnot]
      · simp only [PostgresSystemDatabase.send, hop, hnot]
        simp only [Option.isNone_none, if_true]
        rw [lookup_append_of_none _ _ _ hnot]
        simp [lookup]
      · simp only [PostgresSystemDatabase.send, hop, hnot]
        simp only [Option.isNone_none, if_true]
        rw [lookup_append_of_none _ _ _ hop]
        simp [lookup]
    · intro m0 hm0
      refine ⟨?_, ?_, ?_⟩
      · simp [PostgresSystemDatabase.send, hop, hm0]
      · simp [PostgresSystemDatabase.send, hop, hm0]
      · simp only [PostgresSystemDatabase.send, hop, hm0]
        simp only [Option.isNone_some, Bool.false_eq_true, if_false]
        rw [lookup_append_of_none _ _ _ hop]
        simp [lookup]
  · intro row hrow
    simp [PostgresSystemDatabase.send, hrow]

/-- Witness for C10: on an empty database the first send for ("T", "d")
stores the message and returns true, and a second send under a fresh
function ID returns false leaving the table unchanged. -/
theorem send_at_most_one_witness :
    (PostgresSystemDatabase.send ⟨[], [], []⟩ "u1" 0 "T" "d" (Js.str "m1")).ret = Js.bool true
    ∧ lookup ("T", "d")
        (PostgresSystemDatabase.send ⟨[], [], []⟩ "u1" 0 "T" "d" (Js.str "m1")).db.notifications
        = some (Js.str "m1")
    ∧ (PostgresSystemDatabase.send ⟨[], [], [(("T", "d"), Js.str "m1")]⟩
        "u2" 1 "T" "d" (Js.str "m2")).ret = Js.bool false :=
  ⟨((send_at_most_one_message_per_topic_key ⟨[], [], []⟩ "u1" 0 "T" "d" (Js.str "m1")).1 rfl).1
      rfl |>.1,
   ((send_at_most_one_message_per_topic_key ⟨[], [], []⟩ "u1" 0 "T" "d" (Js.str "m1")).1 rfl).1
      rfl |>.2.1,
   (((send_at_most_one_message_per_topic_key ⟨[], [], [(("T", "d"), Js.str "m1")]⟩
      "u2" 1 "T" "d" (Js.str "m2")).1 rfl).2 (Js.str "m1") rfl).1⟩

/-- Claim C4 counterexample: two sends of distinct messages to the same
(topic, key) do not each enqueue their own row: after the second send
the notifications table still holds only the first message and the
second send reports false, so notifications are not a multi-producer
FIFO queue in which every message is enqueued. -/
theorem second_send_same_key_not_enqueued :
    (PostgresSystemDatabase.send
      (PostgresSystemDatabase.send ⟨[], [], []⟩ "u1" 0 "T" "d" (Js.str "m1")).db
      "u2" 0 "T" "d" (Js.str "m2")).db.notifications
      = [(("T", "d"), Js.str "m1")]
    ∧ (PostgresSystemDatabase.send
      (PostgresSystemDatabase.send ⟨[], [], []⟩ "u1" 0 "T" "d" (Js.str "m1")).db
      "u2" 0 "T" "d" (Js.str "m2")).ret = Js.bool false := by
  constructor
  · rfl
  · rfl

/-- Claim C4 amended: the notifications table holds at most one message
per (topic, key): a send finding the key occupied leaves the table
unchanged (the new message is dropped and false returned), and a recv
that finds the stored message consumes it, deleting the row in the
same transaction that records the receive, so each message is consumed
at most once. -/
theorem notifications_single_slot_consume_once
    (db : SystemDBState) (uuid : String) (fid : Nat) (topic key : String) (msg m0 : Js) :
    (lookup (topic, key) db.notifications = some m0 →
      (PostgresSystemDatabase.send db uuid fid topic key msg).db.notifications
        = db.notifications)
    ∧ (lookup (uuid, fid) db.operation_outputs = none →
       lookup (topic, key) db.notifications = some m0 →
        (PostgresSystemDatabase.recv db uuid fid topic key).ret = m0
        ∧ lookup (topic, key)
            (PostgresSystemDatabase.recv db uuid fid topic key).db.notifications = none
        ∧ lookup (uuid, fid)
            (PostgresSystemDatabase.recv db uuid fid topic key).db.operation_outputs
            = some ⟨some m0, none⟩) := by
  constructor
  · intro hm
    cases hop : lookup (uuid, fid) db.operation_outputs with
    | some row => simp [PostgresSystemDatabase.send, hop]
    | none => simp [PostgresSystemDatabase.send, hop, hm]
  · intro hop hm
    refine ⟨?_, ?_, ?_⟩
    · simp [PostgresSystemDatabase.recv, hop, hm]
    · simp only [PostgresSystemDatabase.recv, hop, hm]
      exact lookup_eraseKey_self _ _
    · simp only [PostgresSystemDatabase.recv, hop, hm]
      rw [lookup_append_of_none _ _ _ hop]
      simp [lookup]

/-- Witness for the amended C4: sending a second message into an occupied
("T", "d") slot leaves the table unchanged, and a recv consumes the
stored message, deletes the row, and records it. -/
theorem notifications_single_slot_witness :
    (PostgresSystemDatabase.send ⟨[], [], [(("T", "d"), Js.str "m1")]⟩
      "u2" 0 "T" "d" (Js.str "m2")).db.notifications = [(("T", "d"), Js.str "m1")]
    ∧ (PostgresSystemDatabase.recv ⟨[], [], [(("T", "d"), Js.str "m1")]⟩ "r" 0 "T" "d").ret
        = Js.str "m1"
    ∧ lookup ("T", "d")
        (PostgresSystemDatabase.recv ⟨[], [], [(("T", "d"), Js.str "m1")]⟩ "r" 0 "T" "d").db.notifications
        = none :=
  ⟨(notifications_single_slot_consume_once ⟨[], [], [(("T", "d"), Js.str "m1")]⟩
      "u2" 0 "T" "d" (Js.str "m2") (Js.str "m1")).1 rfl,
   ((notifications_single_slot_consume_once ⟨[], [], [(("T", "d"), Js.str "m1")]⟩
      "r" 0 "T" "d" Js.null (Js.str "m1")).2 rfl rfl).1,
   ((notifications_single_slot_consume_once ⟨[], [], [(("T", "d"), Js.str "m1")]⟩
      "r" 0 "T" "d" Js.null (Js.str "m1")).2 rfl rfl).2.1⟩

/-- Claim C7: in debug/replay mode every step probes the recorded
outputs for its (workflow UUID, function ID): with no recorded row in
operation_outputs, the communicator, send, recv, setEvent, and
getEvent steps all fail with the DebuggerError saying the recorded
result cannot be found, and with no recorded row in
transaction_outputs the transaction step fails the same way without
ever executing the user body. -/
theorem debug_steps_require_recorded_rows
    (db : DebugState) (uuid : String) (fid : Nat) (bodyResult : Js) :
    (lookup (uuid, fid) db.operation_outputs = none →
      WorkflowContextDebug.external true db uuid fid = .error .cannotFindRecorded
      ∧ WorkflowContextDebug.send db uuid fid = .error .cannotFindRecorded
      ∧ WorkflowContextDebug.recv db uuid fid = .error .cannotFindRecorded
      ∧ WorkflowContextDebug.setEvent db uuid fid = .error .cannotFindRecorded
      ∧ WorkflowContextDebug.getEvent db uuid fid = .error .cannotFindRecorded)
    ∧ (lookup (uuid, fid) db.transaction_outputs = none →
      (WorkflowContextDebug.transaction true db uuid fid bodyResult).result
        = .error .cannotFindRecorded
      ∧ (WorkflowContextDebug.transaction true db uuid fid bodyResult).bodyRan = false) := by
  constructor
  · intro hop
    refine ⟨?_, ?_, ?_, ?_, ?_⟩ <;>
      simp [WorkflowContextDebug.external, WorkflowContextDebug.send,
        WorkflowContextDebug.recv, WorkflowContextDebug.setEvent,
        WorkflowContextDebug.getEvent, checkOperationOutput, hop]
  · intro htx
    constructor <;>
      simp [WorkflowContextDebug.transaction, WorkflowContextDebug.checkExecution, htx]

/-- Witness for C7: on an empty recorded state every debug step fails
with the cannot-find-recorded DebuggerError and the transaction body
never runs. -/
theorem debug_steps_require_recorded_rows_witness :
    WorkflowContextDebug.external true ⟨[], []⟩ "u" 0 = .error .cannotFindRecorded
    ∧ (WorkflowContextDebug.transaction true ⟨[], []⟩ "u" 0 (Js.num 5)).result
        = .error .cannotFindRecorded
    ∧ (WorkflowContextDebug.transaction true ⟨[], []⟩ "u" 0 (Js.num 5)).bodyRan = false :=
  ⟨((debug_steps_require_recorded_rows ⟨[], []⟩ "u" 0 (Js.num 5)).1 rfl).1,
   ((debug_steps_require_recorded_rows ⟨[], []⟩ "u" 0 (Js.num 5)).2 rfl).1,
   ((debug_steps_require_recorded_rows ⟨[], []⟩ "u" 0 (Js.num 5)).2 rfl).2⟩

/-- Claim C8: when checkExecution finds the recorded row of a debug-mode
transaction step, the user body is re-executed, its result is compared
with the recorded output by JSON equality, a mismatch only emits a log
line (the step still completes without an exception), and the recorded
output is returned in every case rather than the re-executed result. -/
theorem debug_transaction_returns_recorded
    (db : DebugState) (uuid : String) (fid : Nat) (bodyResult : Js) (check : RecordedResult)
    (hchk : WorkflowContextDebug.checkExecution db uuid fid = .ok check) :
    (WorkflowContextDebug.transaction true db uuid fid bodyResult).bodyRan = true
    ∧ (WorkflowContextDebug.transaction true db uuid fid bodyResult).result = .ok check.output
    ∧ ((WorkflowContextDebug.transaction true db uuid fid bodyResult).mismatchLogged = true
        ↔ check.output ≠ bodyResult) := by
  refine ⟨?_, ?_, ?_⟩ <;> simp [WorkflowContextDebug.transaction, hchk]

/-- Witness for C8: a recorded output of 7 against a re-executed result
of 8 re-runs the body, logs the mismatch, raises no exception, and
returns the recorded 7. -/
theorem debug_transaction_returns_recorded_witness :
    (WorkflowContextDebug.transaction true ⟨[], [(("u", 0), ⟨some (Js.num 7), none, "s", "t"⟩)]⟩
      "u" 0 (Js.num 8)).bodyRan = true
    ∧ (WorkflowContextDebug.transaction true ⟨[], [(("u", 0), ⟨some (Js.num 7), none, "s", "t"⟩)]⟩
      "u" 0 (Js.num 8)).result = .ok (Js.num 7)
    ∧ ((WorkflowContextDebug.transaction true ⟨[], [(("u", 0), ⟨some (Js.num 7), none, "s", "t"⟩)]⟩
      "u" 0 (Js.num 8)).mismatchLogged = true ↔ (Js.num 7 : Js) ≠ Js.num 8) :=
  debug_transaction_returns_recorded
    ⟨[], [(("u", 0), ⟨some (Js.num 7), none, "s", "t"⟩)]⟩ "u" 0 (Js.num 8)
    ⟨Js.num 7, "s", "t"⟩ rfl

end DBOS
